import Mathlib

/-!
Verification of the vexy-overnight repository against its specification.

The repository is a Python desktop-automation helper.  This file gives a
shallow embedding of the functions the claims are about:

* `session_state.py` — `SessionInfo.to_dict` / `from_dict`,
  `SessionStateManager.read_session` / `write_session` / `kill_old_session`
  / `rotate_session`;
* `hook_runtime.py` — `resolve_target`, `build_prompt` (with
  `_collect_todo_lines` and `_collect_plan_hint`), `build_target_command`;
* `config.py` — `ConfigManager._write_with_rollback` together with
  `backup_config` and `_restore_from_backup`;
* `tools/version_bump.py` — `get_next_version`;
* `vexy_overnight.py` — `process_data`.

Python runtime values that flow through these functions are modelled by the
inductive type `PyVal` (ints, bools, strings, bytes, lists, tuples, dicts
with string keys, and None; floats do not occur in the verified paths).
File contents are modelled explicitly (a JSON file as `FileState`, text
files as `Option (List String)` of their lines), and OS interaction points
(`shutil.which`, `os.getcwd`, `datetime.now().isoformat`, the psutil
process table, `git tag` output) are parameters of the embedded functions.
Python exceptions are modelled with `Except`.

The model of `repr` keeps Python's shape for the types above but always
quotes strings with a single quote and escapes only backslashes and quotes;
`int()` accepts an optional sign and ASCII digits with single underscores
between digits, as Python does for the tag strings that occur here.
-/

/-- Model of the Python runtime values handled by the verified code:
`None`, `bool`, `int`, `str`, `bytes` (content as an ASCII string),
`list`, `tuple`, and `dict` with string keys. -/
inductive PyVal where
  | noneV : PyVal
  | boolV : Bool → PyVal
  | intV : Int → PyVal
  | strV : String → PyVal
  | bytesV : String → PyVal
  | listV : List PyVal → PyVal
  | tupleV : List PyVal → PyVal
  | dictV : List (String × PyVal) → PyVal

/-- Python exceptions raised by the modelled session-state code. -/
inductive PyExc where
  | typeError : PyExc
  | keyError : PyExc
  | valueError : PyExc
  | jsonDecodeError : PyExc
deriving DecidableEq

/-- Join a list of strings with a separator, like `sep.join(parts)`. -/
def joinSep (sep : String) : List String → String
  | [] => ""
  | [x] => x
  | x :: y :: ys => x ++ sep ++ joinSep sep (y :: ys)

/-- Strip leading and trailing whitespace from a character list. -/
def trimChars (cs : List Char) : List Char :=
  ((cs.dropWhile Char.isWhitespace).reverse.dropWhile Char.isWhitespace).reverse

/-- Model of Python `str.strip()` (and of stripping in `str.split()`). -/
def pyStrip (s : String) : String :=
  String.mk (trimChars s.toList)

/-- Accumulating pass of whitespace splitting: `cur` holds the reversed
current word. -/
def splitWsAux : List Char → List Char → List String
  | cur, [] => if cur = [] then [] else [String.mk cur.reverse]
  | cur, c :: cs =>
    if c.isWhitespace then
      if cur = [] then splitWsAux [] cs
      else String.mk cur.reverse :: splitWsAux [] cs
    else splitWsAux (c :: cur) cs

/-- Accumulating pass of splitting on `'.'`, keeping empty pieces. -/
def splitDotAux : List Char → List Char → List String
  | cur, [] => [String.mk cur.reverse]
  | cur, c :: cs =>
    if c = '.' then String.mk cur.reverse :: splitDotAux [] cs
    else splitDotAux (c :: cur) cs

/-- Model of Python `s.split(".")`. -/
def splitDot (s : String) : List String :=
  splitDotAux [] s.toList

/-- Model of Python `str.startswith(pat)` by character comparison. -/
def charsStartWith : List Char → List Char → Bool
  | [], _ => true
  | _ :: _, [] => false
  | p :: ps, c :: cs => p = c && charsStartWith ps cs

/-- Model of Python `s.startswith(pat)`. -/
def pyStartsWith (s pat : String) : Bool :=
  charsStartWith pat.toList s.toList

/-- Escaping used by the model of `repr` on strings: backslashes and single
quotes are escaped; other characters are kept as-is. -/
def pyStrEscape (s : String) : String :=
  String.mk (s.toList.foldr
    (fun c acc =>
      if c = '\\' then '\\' :: '\\' :: acc
      else if c = '\x27' then '\\' :: '\x27' :: acc
      else c :: acc) [])

mutual

/-- Model of Python `repr` on `PyVal` (strings always single-quoted). -/
def pyRepr : PyVal → String
  | PyVal.noneV => "None"
  | PyVal.boolV b => if b then "True" else "False"
  | PyVal.intV n => toString n
  | PyVal.strV s => "\x27" ++ pyStrEscape s ++ "\x27"
  | PyVal.bytesV s => "b\x27" ++ pyStrEscape s ++ "\x27"
  | PyVal.listV xs => "[" ++ joinSep ", " (pyReprList xs) ++ "]"
  | PyVal.tupleV xs =>
    let parts := pyReprList xs
    if parts.length = 1 then "(" ++ joinSep ", " parts ++ ",)"
    else "(" ++ joinSep ", " parts ++ ")"
  | PyVal.dictV fs => "\x7b" ++ joinSep ", " (pyReprFields fs) ++ "\x7d"

/-- Values of a list, each passed through `repr`. -/
def pyReprList : List PyVal → List String
  | [] => []
  | v :: vs => pyRepr v :: pyReprList vs

/-- Entries of a dict value rendered as `key: value` reprs. -/
def pyReprFields : List (String × PyVal) → List String
  | [] => []
  | (k, v) :: fs =>
    ("\x27" ++ pyStrEscape k ++ "\x27: " ++ pyRepr v) :: pyReprFields fs

end

/-- Model of Python `str()` on the values above (identity on `str`,
`repr` otherwise, matching CPython for these types). -/
def pyStr : PyVal → String
  | PyVal.strV s => s
  | v => pyRepr v

/-- Tail of a digit run for the model of Python `int(str)`: digits with
single underscores allowed only between digits. -/
def pyDigitsRest : List Char → Bool
  | [] => true
  | c :: cs =>
    if c = '_' then
      match cs with
      | [] => false
      | d :: ds => d.isDigit && pyDigitsRest ds
    else
      c.isDigit && pyDigitsRest cs

/-- A valid unsigned digit run: nonempty, starts with a digit, and any
underscores sit between digits. -/
def pyDigitsOk : List Char → Bool
  | [] => false
  | c :: cs => c.isDigit && pyDigitsRest cs

/-- Numeric value of a digit run once underscores are removed. -/
def digitsOnlyVal (cs : List Char) : Nat :=
  cs.foldl (fun acc c => acc * 10 + (c.toNat - '0'.toNat)) 0

/-- Parse an unsigned digit run as Python `int` does. -/
def pyNatParse (cs : List Char) : Option Nat :=
  if pyDigitsOk cs then
    Option.some (digitsOnlyVal (cs.filter (fun c => c != '_')))
  else
    Option.none

/-- Model of Python `int(s)` on ASCII strings: optional surrounding
whitespace, optional sign, digits with single underscores in between.
Returns `none` where Python raises `ValueError`. -/
def pyIntParse (s : String) : Option Int :=
  match (pyStrip s).toList with
  | '+' :: rest => (pyNatParse rest).map (fun n => (n : Int))
  | '-' :: rest => (pyNatParse rest).map (fun n => -(n : Int))
  | rest => (pyNatParse rest).map (fun n => (n : Int))

/-- Model of Python `int(x)` on a runtime value: ints and bools convert,
strings and bytes parse (`ValueError` on failure), and every other type
raises `TypeError`. -/
def pyInt : PyVal → Except PyExc Int
  | PyVal.boolV b => Except.ok (if b then 1 else 0)
  | PyVal.intV n => Except.ok n
  | PyVal.strV s =>
    match pyIntParse s with
    | Option.some n => Except.ok n
    | Option.none => Except.error PyExc.valueError
  | PyVal.bytesV s =>
    match pyIntParse s with
    | Option.some n => Except.ok n
    | Option.none => Except.error PyExc.valueError
  | _ => Except.error PyExc.typeError

/-- Embeds `SessionInfo` from `session_state.py`: tool name, process id, ISO
start time, and working directory. -/
structure SessionInfo where
  tool : String
  pid : Int
  start_time : String
  cwd : String
deriving DecidableEq

/-- Embeds `SessionInfo.to_dict`: the JSON-safe dictionary written to the session
state file. -/
def to_dict (s : SessionInfo) : PyVal :=
  PyVal.dictV
    [("tool", PyVal.strV s.tool), ("pid", PyVal.intV s.pid),
     ("start_time", PyVal.strV s.start_time), ("cwd", PyVal.strV s.cwd)]

/-- Embeds `SessionInfo.from_dict`: field accesses `data["tool"]`, `data["pid"]`
(converted with `int`), `data["start_time"]`, `data["cwd"]` in Python's
evaluation order.  Subscripting a non-dict value raises `TypeError`, a
missing key raises `KeyError`, and the `int` conversion may raise
`ValueError` or `TypeError`. -/
def from_dict (v : PyVal) : Except PyExc SessionInfo :=
  match v with
  | PyVal.dictV fs =>
    match List.lookup "tool" fs with
    | Option.none => Except.error PyExc.keyError
    | Option.some toolV =>
      match List.lookup "pid" fs with
      | Option.none => Except.error PyExc.keyError
      | Option.some pidV =>
        match pyInt pidV with
        | Except.error e => Except.error e
        | Except.ok pid =>
          match List.lookup "start_time" fs with
          | Option.none => Except.error PyExc.keyError
          | Option.some stV =>
            match List.lookup "cwd" fs with
            | Option.none => Except.error PyExc.keyError
            | Option.some cwdV =>
              Except.ok ⟨pyStr toolV, pid, pyStr stV, pyStr cwdV⟩
  | _ => Except.error PyExc.typeError

/-- State of the session-state JSON file: absent, present but not valid
JSON, or present with a parsed JSON value. -/
inductive FileState where
  | missing : FileState
  | invalid : FileState
  | parsed : PyVal → FileState

/-- Embeds `SessionStateManager.read_session`: `None` for a missing file; the file
is parsed as JSON and handed to `from_dict`, with `json.JSONDecodeError`,
`KeyError` and `ValueError` caught and turned into `None`.  A `TypeError`
(raised by `from_dict` when the JSON document is not an object, or when the
pid has a non-convertible type) is not caught and propagates. -/
def read_session (fs : FileState) : Except PyExc (Option SessionInfo) :=
  match fs with
  | FileState.missing => Except.ok Option.none
  | FileState.invalid => Except.ok Option.none
  | FileState.parsed v =>
    match from_dict v with
    | Except.ok s => Except.ok (Option.some s)
    | Except.error PyExc.jsonDecodeError => Except.ok Option.none
    | Except.error PyExc.keyError => Except.ok Option.none
    | Except.error PyExc.valueError => Except.ok Option.none
    | Except.error PyExc.typeError => Except.error PyExc.typeError

/-- Model of Python's `x or y` for the `cwd or os.getcwd()` expression in
`write_session`: an absent or empty string falls back to the right side. -/
def pyOrS (x : Option String) (y : String) : String :=
  match x with
  | Option.none => y
  | Option.some c => if c = "" then y else c

/-- Embeds `SessionStateManager.write_session`: builds a `SessionInfo` from the
arguments, the clock (`datetime.now().isoformat()`, passed as `now`) and
`os.getcwd()` (passed as `getcwd`), dumps its `to_dict` to the state file,
and returns it. -/
def write_session (tool : String) (pid : Int) (cwdArg : Option String)
    (getcwd now : String) : FileState × SessionInfo :=
  let session : SessionInfo := ⟨tool, pid, now, pyOrS cwdArg getcwd⟩
  (FileState.parsed (to_dict session), session)

/-- Observable behaviour of the process table seen by
`SessionStateManager.kill_old_session`, indexed by pid.  `name_result pid`
is `none` when `psutil.Process(pid)`/`name()` raises `NoSuchProcess` or
`AccessDenied`; `terminate_ok`/`kill_ok` are false when the corresponding
signal call raises one of those two exceptions; `wait_times_out` tells
whether `wait(timeout=5)` raises `TimeoutExpired`. -/
structure ProcEnv where
  psutil_available : Bool
  pid_exists : Int → Bool
  name_result : Int → Option String
  terminate_ok : Int → Bool
  wait_times_out : Int → Bool
  kill_ok : Int → Bool

/-- The psutil exceptions that can escape to the outer handler of
`kill_old_session`. -/
inductive PsErr where
  | noSuchProcess : PsErr
  | accessDenied : PsErr
deriving DecidableEq

/-- Does `pat` occur anywhere inside the character list? -/
def charsContains (pat : List Char) : List Char → Bool
  | [] => charsStartWith pat []
  | c :: cs => charsStartWith pat (c :: cs) || charsContains pat cs

/-- Model of Python's `pat in s` on strings. -/
def strContains (s pat : String) : Bool :=
  charsContains pat.toList s.toList

/-- Model of `str.lower()` via per-character lower-casing. -/
def strToLower (s : String) : String :=
  String.mk (s.toList.map Char.toLower)

/-- The name test of `kill_old_session`: the lower-cased process name must
contain `"claude"`, `"codex"` or `"gemini"`. -/
def nameMatches (nm : String) : Bool :=
  strContains (strToLower nm) "claude" || strContains (strToLower nm) "codex"
    || strContains (strToLower nm) "gemini"

/-- Body of the `try` block of `kill_old_session` for the given pid.  The
result pair is `(return value, a matching process was terminated)`; errors
are the psutil exceptions that reach the outer handler. -/
def kill_old_session_body (env : ProcEnv) (pid : Int) :
    Except PsErr (Bool × Bool) :=
  if !env.pid_exists pid then Except.ok (false, false)
  else
    match env.name_result pid with
    | Option.none => Except.error PsErr.noSuchProcess
    | Option.some nm =>
      if !nameMatches nm then Except.ok (false, false)
      else if !env.terminate_ok pid then Except.error PsErr.accessDenied
      else if !env.wait_times_out pid then Except.ok (true, true)
      else if env.kill_ok pid then Except.ok (true, true)
      else Except.error PsErr.accessDenied

/-- Embeds `SessionStateManager.kill_old_session`: returns
`(return value, a matching process was terminated)`.  The `import psutil`
failure returns `False`; `NoSuchProcess`/`AccessDenied` escaping the body
are caught and also yield `False`. -/
def kill_old_session (env : ProcEnv) (session : SessionInfo) : Bool × Bool :=
  if !env.psutil_available then (false, false)
  else
    match kill_old_session_body env session.pid with
    | Except.ok r => r
    | Except.error _ => (false, false)

/-- Events of a `rotate_session` run, in execution order. -/
inductive SEv where
  | readEv : SEv
  | killEv : SEv
  | writeEv : SEv
deriving DecidableEq

/-- Embeds `SessionStateManager.rotate_session`: reads the persisted session,
attempts to kill it when `kill_old` is set and the read produced a session,
then writes and returns the new session.  An exception escaping
`read_session` propagates.  The event trace records the order of the three
steps; the kill attempt itself is modelled by `kill_old_session`. -/
def rotate_session (fs : FileState) (tool : String) (pid : Int)
    (cwdArg : Option String) (kill_old : Bool) (getcwd now : String) :
    Except PyExc (List SEv × FileState × SessionInfo) :=
  match read_session fs with
  | Except.error e => Except.error e
  | Except.ok old =>
    let killTrace := if kill_old && old.isSome then [SEv.killEv] else []
    let ws := write_session tool pid cwdArg getcwd now
    Except.ok (SEv.readEv :: killTrace ++ [SEv.writeEv], ws.1, ws.2)

/-- Embeds `ContinuationPrefs` from `user_settings.py`: the routing preferences
of one source tool. -/
structure ContinuationPrefsM where
  enabled : Bool
  target : String
deriving DecidableEq

/-- A prompt template, modelling a Python format string as the sequence of
its literal pieces and `\x7bname\x7d` replacement fields. -/
inductive Tok where
  | lit : String → Tok
  | var : String → Tok
deriving DecidableEq

/-- The fields of `UserSettings` used by `resolve_target` and
`build_prompt` (dicts modelled as association lists). -/
structure UserSettingsM where
  continuations : List (String × ContinuationPrefsM)
  prompts : List (String × List Tok)

/-- Embeds `CONTINUATION_TOOLS` from `user_settings.py`. -/
def CONTINUATION_TOOLS : List String := ["claude", "codex", "gemini"]

/-- Embeds `resolve_target` from `hook_runtime.py`: the configured target of the
source tool, falling back to `"claude"` when the tool has no preferences or
the target is not a recognised tool. -/
def resolve_target (settings : UserSettingsM) (tool : String) : String :=
  let target :=
    match List.lookup tool settings.continuations with
    | Option.some prefs => prefs.target
    | Option.none => "claude"
  if CONTINUATION_TOOLS.contains target then target else "claude"

/-- The source text of a template (what `template` itself is in Python). -/
def tokSource : List Tok → String
  | [] => ""
  | Tok.lit s :: rest => s ++ tokSource rest
  | Tok.var k :: rest => "\x7b" ++ k ++ "\x7d" ++ tokSource rest

/-- Model of `template.format(**values)`: every replacement field must be
bound in `values`, otherwise formatting raises (`none`). -/
def formatTmpl (t : List Tok) (values : List (String × String)) : Option String :=
  match t with
  | [] => Option.some ""
  | Tok.lit s :: rest =>
    match formatTmpl rest values with
    | Option.some r => Option.some (s ++ r)
    | Option.none => Option.none
  | Tok.var k :: rest =>
    match List.lookup k values with
    | Option.some v =>
      match formatTmpl rest values with
      | Option.some r => Option.some (v ++ r)
      | Option.none => Option.none
    | Option.none => Option.none

/-- Python's `x or y` on an optional template: `None` and the empty
template are falsy. -/
def pyOrT (x : Option (List Tok)) (y : List Tok) : List Tok :=
  match x with
  | Option.some t => if tokSource t = "" then y else t
  | Option.none => y

/-- Embeds `DEFAULT_PROMPTS` from `hook_runtime.py` / `user_settings.py`. -/
def DEFAULT_PROMPTS : List (String × List Tok) :=
  [("claude",
    [Tok.lit "Continue work in the next tool. Outstanding tasks:\n", Tok.var "todo"]),
   ("codex",
    [Tok.lit "Pick up the session with these TODOs:\n", Tok.var "todo"]),
   ("gemini",
    [Tok.lit "Continue assisting with current plan:\n", Tok.var "plan"])]

/-- Embeds `DEFAULT_PROMPT_FALLBACK` from `hook_runtime.py`. -/
def DEFAULT_PROMPT_FALLBACK : List Tok :=
  [Tok.lit "Continue working on the current task"]

/-- Embeds `_collect_todo_lines`: the first five stripped lines of `TODO.md` that
start with `"- [ ]"`; a missing or unreadable file yields `[]`.  The file
argument is its list of lines (`none` when missing/unreadable). -/
def collect_todo_lines (todoFile : Option (List String)) : List String :=
  match todoFile with
  | Option.none => []
  | Option.some ls =>
    (((ls.map (fun l => pyStrip l)).filter (fun l => pyStartsWith l "- [ ]")).take 5)

/-- Embeds `_collect_plan_hint`: the first five non-empty stripped lines of
`PLAN.md` joined with newlines; a missing or unreadable file yields `""`. -/
def collect_plan_hint (planFile : Option (List String)) : String :=
  match planFile with
  | Option.none => ""
  | Option.some ls =>
    joinSep "\n" (((ls.map (fun l => pyStrip l)).filter (fun l => l != "")).take 5)

/-- Embeds `build_prompt` from `hook_runtime.py`: picks the source tool's template
(settings, then packaged defaults, then the fallback), renders the todo and
plan snippets with their placeholder defaults, and formats the template;
a formatting error returns the template source unchanged. -/
def build_prompt (settings : UserSettingsM) (source_tool target_tool : String)
    (todoFile planFile : Option (List String)) (fallback : List Tok) : String :=
  let template := pyOrT (List.lookup source_tool settings.prompts)
    (pyOrT (List.lookup source_tool DEFAULT_PROMPTS) fallback)
  let todo_lines := collect_todo_lines todoFile
  let todo_text := if todo_lines = [] then "No open TODO items." else joinSep "\n" todo_lines
  let plan_hint := collect_plan_hint planFile
  let plan_text := if plan_hint = "" then "No plan summary available." else plan_hint
  let values := [("todo", todo_text), ("plan", plan_text),
                 ("target", target_tool), ("source", source_tool)]
  match formatTmpl template values with
  | Option.some s => s
  | Option.none => tokSource template

/-- Embeds `resolve_executable`: `shutil.which` (passed as a parameter) or the
bare command name when not found. -/
def resolve_executable (which : String → Option String) (command_name : String) : String :=
  match which command_name with
  | Option.some p => p
  | Option.none => command_name

/-- Embeds `build_target_command` from `hook_runtime.py`, with `shutil.which`
abstracted as `which` and the project directory as a string. -/
def build_target_command (which : String → Option String) (target_tool : String)
    (project_dir : String) (prompt : String) : List String :=
  if target_tool = "codex" then
    let command := [resolve_executable which "codex", "--cd=" ++ project_dir,
      "-m", "gpt5", "--dangerously-bypass-approvals-and-sandbox",
      "--sandbox", "danger-full-access"]
    if prompt != "" then command ++ [prompt] else command
  else if target_tool = "gemini" then
    let command := [resolve_executable which "gemini", "-c", "-y"]
    if prompt != "" then command ++ [prompt] else command
  else
    let command := [resolve_executable which "claude", "--continue",
      "--dangerously-skip-permissions"]
    if prompt != "" then command ++ ["--prompt", prompt] else command

/-- The fixed codex command template of `build_target_command`. -/
def codexTemplate (which : String → Option String) (project_dir : String) : List String :=
  [resolve_executable which "codex", "--cd=" ++ project_dir, "-m", "gpt5",
   "--dangerously-bypass-approvals-and-sandbox", "--sandbox", "danger-full-access"]

/-- The fixed gemini command template of `build_target_command`. -/
def geminiTemplate (which : String → Option String) : List String :=
  [resolve_executable which "gemini", "-c", "-y"]

/-- The fixed claude command template of `build_target_command`. -/
def claudeTemplate (which : String → Option String) : List String :=
  [resolve_executable which "claude", "--continue", "--dangerously-skip-permissions"]

/-- Events performed by `ConfigManager._write_with_rollback`, in execution
order: copying the backup, writing the payload to the temporary file, the
successful validation of the temporary file, replacing the target with the
temporary file, and restoring from the backup in the exception handler. -/
inductive CEv where
  | backupEv : CEv
  | writeTmpEv : CEv
  | validateOkEv : CEv
  | replaceEv : CEv
  | restoreEv : CEv
deriving DecidableEq

/-- The three files touched by `_write_with_rollback`: the target config
file, its timestamped backup, and the `.tmp` sibling (`none` = absent). -/
structure ConfigFS where
  target : Option String
  backup : Option String
  tmp : Option String
deriving DecidableEq

/-- Embeds `ConfigManager.backup_config`: copy the target to a backup path when it
exists; returns the updated filesystem, whether a backup was made (the
non-`None` return in Python), and the emitted event. -/
def backup_config (fs : ConfigFS) : ConfigFS × Bool × List CEv :=
  match fs.target with
  | Option.none => (fs, false, [])
  | Option.some c => ({ fs with backup := Option.some c }, true, [CEv.backupEv])

/-- Embeds `ConfigManager._restore_from_backup`: copy the backup over the target
when one was made, else delete a target that exists without a backup. -/
def restore_from_backup (fs : ConfigFS) (hadBackup : Bool) : ConfigFS :=
  if hadBackup && fs.backup.isSome then { fs with target := fs.backup }
  else if !hadBackup && fs.target.isSome then { fs with target := Option.none }
  else fs

/-- Embeds `ConfigManager._write_with_rollback`.  `writeResult` is the payload the
`write_func` callback writes to the temporary file, `none` when it raises;
`validate` is the JSON/TOML validation of the temporary file's contents
(false = the validator raises).  Result: final filesystem, event trace,
and whether the exception propagated to the caller. -/
def write_with_rollback (fs0 : ConfigFS) (writeResult : Option String)
    (validate : String → Bool) : ConfigFS × List CEv × Bool :=
  let bk := backup_config fs0
  let fs2 := { bk.1 with tmp := Option.none }
  match writeResult with
  | Option.none =>
    (restore_from_backup { fs2 with tmp := Option.none } bk.2.1,
     bk.2.2 ++ [CEv.restoreEv], true)
  | Option.some payload =>
    let fs3 := { fs2 with tmp := Option.some payload }
    if validate payload then
      ({ fs3 with target := Option.some payload, tmp := Option.none },
       bk.2.2 ++ [CEv.writeTmpEv, CEv.validateOkEv, CEv.replaceEv], false)
    else
      (restore_from_backup { fs3 with tmp := Option.none } bk.2.1,
       bk.2.2 ++ [CEv.writeTmpEv, CEv.restoreEv], true)

/-- Python's `<` on integer tuples (of possibly different lengths),
compared lexicographically with a shorter strict prefix ranking lower. -/
def pyListLtInt : List Int → List Int → Bool
  | [], [] => false
  | [], _ :: _ => true
  | _ :: _, [] => false
  | x :: xs, y :: ys =>
    if x < y then true else if y < x then false else pyListLtInt xs ys

/-- The `version_key` closure of `get_next_version`:
`tuple(map(int, tag[1:].split(".")))`, with a `ValueError` from any
component mapped to `(0, 0, 0)`.  A tag with a number of components other
than three yields a tuple of that length, exactly as in Python. -/
def version_key (tag : String) : List Int :=
  match (splitDot (String.mk (tag.toList.drop 1))).mapM pyIntParse with
  | Option.some ks => ks
  | Option.none => [0, 0, 0]

/-- Python `str.split()` with no argument: split on whitespace runs,
dropping empty pieces. -/
def pySplitWs (s : String) : List String :=
  splitWsAux [] s.toList

/-- Embeds `get_next_version` from `tools/version_bump.py`.  The argument is the
stdout of `git tag -l "v*.*.*"`, `none` when the command fails
(`CalledProcessError`).  `max(tags, key=version_key)` keeps the first tag
with a strictly greater key; unpacking its key into `major, minor, patch`
raises `ValueError` when the key is not a triple, which the surrounding
handler turns into `"v1.0.0"`. -/
def get_next_version (gitResult : Option String) : String :=
  match gitResult with
  | Option.none => "v1.0.0"
  | Option.some stdout =>
    let tags := ((pySplitWs stdout).map (fun t => pyStrip t)).filter (fun t => t != "")
    match tags with
    | [] => "v1.0.0"
    | t :: rest =>
      let latest := rest.foldl
        (fun best x => if pyListLtInt (version_key best) (version_key x) then x else best) t
      match version_key latest with
      | [a, b, c] => "v" ++ toString a ++ "." ++ toString b ++ "." ++ toString (c + 1)
      | _ => "v1.0.0"

/-- The version key as C7 words it: exactly three dot-separated integers
after the leading "v", with every other tag ranked `(0, 0, 0)`. -/
def version_key_claim (tag : String) : Int × Int × Int :=
  match splitDot (String.mk (tag.toList.drop 1)) with
  | [a, b, c] =>
    match pyIntParse a, pyIntParse b, pyIntParse c with
    | Option.some x, Option.some y, Option.some z => (x, y, z)
    | _, _, _ => (0, 0, 0)
  | _ => (0, 0, 0)

/-- Strict lexicographic order on integer triples. -/
def tripleLt (a b : Int × Int × Int) : Bool :=
  if a.1 < b.1 then true
  else if b.1 < a.1 then false
  else if a.2.1 < b.2.1 then true
  else if b.2.1 < a.2.1 then false
  else decide (a.2.2 < b.2.2)

/-- Embeds `get_next_version` as claim C7 states it: the highest
`(major, minor, patch)` triple among the listed tags, with the patch
incremented; tags that do not parse as three dot-separated integers rank
as `(0, 0, 0)`. -/
def get_next_version_claim (gitResult : Option String) : String :=
  match gitResult with
  | Option.none => "v1.0.0"
  | Option.some stdout =>
    let tags := ((pySplitWs stdout).map (fun t => pyStrip t)).filter (fun t => t != "")
    match tags with
    | [] => "v1.0.0"
    | t :: rest =>
      let best := rest.foldl
        (fun acc x => if tripleLt (version_key_claim acc) (version_key_claim x) then x else acc) t
      let k := version_key_claim best
      "v" ++ toString k.1 ++ "." ++ toString k.2.1 ++ "." ++ toString (k.2.2 + 1)

/-- Python `type(x).__name__` for the modelled values. -/
def typeName : PyVal → String
  | PyVal.noneV => "NoneType"
  | PyVal.boolV _ => "bool"
  | PyVal.intV _ => "int"
  | PyVal.strV _ => "str"
  | PyVal.bytesV _ => "bytes"
  | PyVal.listV _ => "list"
  | PyVal.tupleV _ => "tuple"
  | PyVal.dictV _ => "dict"

/-- Embeds `isinstance(x, str | bytes)`. -/
def isStrOrBytes : PyVal → Bool
  | PyVal.strV _ => true
  | PyVal.bytesV _ => true
  | _ => false

/-- Embeds `isinstance(x, Sequence)` for the modelled values: `str`, `bytes`,
`list` and `tuple` are registered `Sequence`s; dicts, ints, bools and
`None` are not. -/
def isSeq : PyVal → Bool
  | PyVal.strV _ => true
  | PyVal.bytesV _ => true
  | PyVal.listV _ => true
  | PyVal.tupleV _ => true
  | _ => false

/-- Elements of a list or tuple value. -/
def pyItems : PyVal → List PyVal
  | PyVal.listV xs => xs
  | PyVal.tupleV xs => xs
  | _ => []

/-- Deduplication keeping first occurrences, with an accumulator of the
strings already seen (models building a Python `set`). -/
def dedupAux : List String → List String → List String
  | _, [] => []
  | seen, s :: rest =>
    if seen.contains s then dedupAux seen rest
    else s :: dedupAux (s :: seen) rest

/-- Distinct elements of a string list, first occurrences first. -/
def dedupStr (l : List String) : List String := dedupAux [] l

/-- Lexicographic code-point order on character lists (Python `<=` on
strings). -/
def charsLe : List Char → List Char → Bool
  | [], _ => true
  | _ :: _, [] => false
  | c :: cs, d :: ds =>
    if c < d then true else if d < c then false else charsLe cs ds

/-- Python string comparison used by `sorted`. -/
def strLe (a b : String) : Bool :=
  charsLe a.toList b.toList

/-- Insertion step of the string sort. -/
def insertStr (s : String) : List String → List String
  | [] => [s]
  | t :: ts => if strLe s t then s :: t :: ts else t :: insertStr s ts

/-- Model of Python `sorted` on a list of strings (insertion sort over the
code-point order). -/
def sortStrings : List String → List String
  | [] => []
  | s :: ss => insertStr s (sortStrings ss)

/-- The `config` argument of `process_data`: `None`, a `Config` instance
(whose validated `options` mapping has string keys), or any other value,
which fails the `isinstance(config, Config)` check. -/
inductive ConfigArg where
  | noneArg : ConfigArg
  | conf : String → PyVal → Option (List (String × PyVal)) → ConfigArg
  | other : PyVal → ConfigArg

/-- Exceptions raised by `process_data`. -/
inductive PyErr8 where
  | typeError : PyErr8
  | valueError : PyErr8
deriving DecidableEq

/-- The `Summary` TypedDict of `vexy_overnight.py`. -/
structure SummaryM where
  count : Nat
  unique_count : Nat
  types : List String
  config_name : Option String
  first_item : String
  options : List (String × PyVal)

/-- Embeds `process_data` from `vexy_overnight.py`, following the source order of
checks: the `str`/`bytes`/non-`Sequence` `TypeError`, then the emptiness
`ValueError`, then the `isinstance(config, Config)` `TypeError`, then the
summary.  `deepcopy` on the modelled (immutable) values is the identity, so
`options_copy` equals the config's options. -/
def process_data (data : PyVal) (config : ConfigArg) : Except PyErr8 SummaryM :=
  if isStrOrBytes data || !isSeq data then Except.error PyErr8.typeError
  else
    match pyItems data with
    | [] => Except.error PyErr8.valueError
    | x :: xs =>
      match config with
      | ConfigArg.other _ => Except.error PyErr8.typeError
      | _ =>
        let items := x :: xs
        let optionsCopy :=
          match config with
          | ConfigArg.conf _ _ (Option.some opts) => opts
          | _ => []
        Except.ok
          { count := items.length,
            unique_count := (dedupStr (items.map pyRepr)).length,
            types := sortStrings (dedupStr (items.map typeName)),
            config_name :=
              match config with
              | ConfigArg.conf n _ _ => Option.some n
              | _ => Option.none,
            first_item := pyRepr x,
            options := optionsCopy }

/-- The data condition of C8's `TypeError` clause: `data` is a string, a
bytes object, or not a `Sequence`. -/
def dataIsBad (d : PyVal) : Bool := isStrOrBytes d || !isSeq d

/-- The config condition of C8's `TypeError` clause: `config` is neither
`None` nor a `Config` instance. -/
def configIsBad : ConfigArg → Bool
  | ConfigArg.other _ => true
  | _ => false

theorem from_dict_to_dict (s : SessionInfo) : from_dict (to_dict s) = Except.ok s := rfl

/-- C9: for every `SessionInfo` value with the declared field types,
serialising with `to_dict` and reconstructing with `from_dict` is the
identity. -/
theorem session_info_roundtrip (s : SessionInfo) :
    from_dict (to_dict s) = Except.ok s :=
  from_dict_to_dict s

/-- C6: the claim says `read_session` never raises and maps every invalid
session file to `None`, but on a state file containing the valid JSON
document `[]` (a non-object) the subscript `data["tool"]` raises a
`TypeError` that is not in the caught exception tuple, so the exception
propagates to the caller. -/
theorem read_session_raises_on_array :
    read_session (FileState.parsed (PyVal.listV [])) = Except.error PyExc.typeError := rfl

/-- C1: `_write_with_rollback` starting from any target state first copies
a backup exactly when the target exists, then writes the payload to the
temporary file, validates it, and only then replaces the target; when the
write or the validation raises, it restores the target to its pre-call
contents (leaving an absent target absent) and re-raises, and in every case
the temporary file is gone afterwards. -/
theorem write_with_rollback_spec (t0 w : Option String) (v : String → Bool) :
    write_with_rollback ⟨t0, Option.none, Option.none⟩ w v =
      (match w with
       | Option.none =>
         (⟨t0, t0, Option.none⟩,
          (match t0 with
           | Option.some _ => [CEv.backupEv]
           | Option.none => []) ++ [CEv.restoreEv], true)
       | Option.some payload =>
         if v payload then
           (⟨Option.some payload, t0, Option.none⟩,
            (match t0 with
             | Option.some _ => [CEv.backupEv]
             | Option.none => []) ++
              [CEv.writeTmpEv, CEv.validateOkEv, CEv.replaceEv], false)
         else
           (⟨t0, t0, Option.none⟩,
            (match t0 with
             | Option.some _ => [CEv.backupEv]
             | Option.none => []) ++ [CEv.writeTmpEv, CEv.restoreEv], true)) := by
  cases t0 <;> cases w <;>
    simp only [write_with_rollback, backup_config, restore_from_backup] <;> rfl

/-- C4: `build_target_command` selects exactly the hard-coded codex,
gemini or claude template (claude for every other tool name) and appends
the prompt (directly for codex/gemini, behind `--prompt` for claude) only
when the prompt is non-empty. -/
theorem build_target_command_spec (which : String → Option String)
    (target_tool project_dir prompt : String) :
    build_target_command which target_tool project_dir prompt =
      (if target_tool = "codex" then codexTemplate which project_dir
       else if target_tool = "gemini" then geminiTemplate which
       else claudeTemplate which) ++
      (if prompt = "" then []
       else if target_tool = "codex" || target_tool = "gemini" then [prompt]
       else ["--prompt", prompt]) := by
  by_cases h1 : target_tool = "codex" <;> by_cases h2 : target_tool = "gemini" <;>
    by_cases h3 : prompt = "" <;>
    simp [build_target_command, codexTemplate, geminiTemplate, claudeTemplate,
      h1, h2, h3]

/-- C10: `resolve_target` always returns one of the three recognised tools
and falls back to `"claude"` whenever the source tool has no continuation
preferences or its configured target is not recognised. -/
theorem resolve_target_spec (settings : UserSettingsM) (tool : String) :
    CONTINUATION_TOOLS.contains (resolve_target settings tool) = true ∧
    (List.lookup tool settings.continuations = Option.none →
      resolve_target settings tool = "claude") ∧
    (∀ prefs, List.lookup tool settings.continuations = Option.some prefs →
      CONTINUATION_TOOLS.contains prefs.target = false →
      resolve_target settings tool = "claude") := by
  unfold resolve_target
  cases h : List.lookup tool settings.continuations with
  | none =>
    refine ⟨by decide, fun _ => by decide, fun prefs hp => ?_⟩
    simp at hp
  | some prefs =>
    dsimp only
    refine ⟨?_, ?_, ?_⟩
    · split
      · rename_i hcond
        exact hcond
      · decide
    · intro hn
      simp at hn
    · intro p hp hc
      cases hp
      simp only [hc, Bool.false_eq_true, if_false]

/-- C10 witness: a concrete settings object with no entry for the queried
tool resolves to a recognised tool, namely `"claude"`. -/
theorem resolve_target_spec_witness :
    CONTINUATION_TOOLS.contains
      (resolve_target ⟨[("claude", ⟨true, "codex"⟩)], []⟩ "unknown") = true ∧
    resolve_target ⟨[("claude", ⟨true, "codex"⟩)], []⟩ "unknown" = "claude" := by
  have h := resolve_target_spec ⟨[("claude", ⟨true, "codex"⟩)], []⟩ "unknown"
  exact ⟨h.1, h.2.1 rfl⟩

/-- C3: `kill_old_session` returns without raising in every modelled
process-table state; its return value is `true` exactly when a matching
process was terminated, which requires psutil to be importable, the pid to
exist, and the (lower-cased) process name to contain `"claude"`, `"codex"`
or `"gemini"`; every import failure, dead pid, non-matching name, or
`NoSuchProcess`/`AccessDenied` error yields `false` with nothing
terminated. -/
theorem kill_old_session_spec (env : ProcEnv) (s : SessionInfo) :
    (kill_old_session env s).1 = (kill_old_session env s).2 ∧
    (kill_old_session env s).1 =
      (env.psutil_available && env.pid_exists s.pid &&
       (match env.name_result s.pid with
        | Option.some nm => nameMatches nm
        | Option.none => false) &&
       env.terminate_ok s.pid && (!env.wait_times_out s.pid || env.kill_ok s.pid)) ∧
    ((kill_old_session env s).2 = true →
      env.psutil_available = true ∧ env.pid_exists s.pid = true ∧
      ∃ nm, env.name_result s.pid = Option.some nm ∧ nameMatches nm = true) := by
  unfold kill_old_session kill_old_session_body
  cases hA : env.psutil_available <;>
    cases hP : env.pid_exists s.pid <;>
    cases hN : env.name_result s.pid <;>
    simp [hA, hP, hN]
  all_goals rename_i nm
  all_goals cases hM : nameMatches nm <;>
    cases hT : env.terminate_ok s.pid <;>
    cases hW : env.wait_times_out s.pid <;>
    cases hK : env.kill_ok s.pid <;>
    simp [hM, hT, hW, hK]

/-- C3 witness: with psutil importable, a live pid, the name "claude", and
a terminate call that succeeds, the call reports a termination and the
return value agrees with the termination flag. -/
theorem kill_old_session_spec_witness :
    (kill_old_session
       ⟨true, fun _ => true, fun _ => Option.some "claude",
        fun _ => true, fun _ => false, fun _ => true⟩
       ⟨"claude", 101, "2025-01-01T00:00:00", "/tmp/p"⟩).1 =
      (kill_old_session
       ⟨true, fun _ => true, fun _ => Option.some "claude",
        fun _ => true, fun _ => false, fun _ => true⟩
       ⟨"claude", 101, "2025-01-01T00:00:00", "/tmp/p"⟩).2 ∧
    (kill_old_session
       ⟨true, fun _ => true, fun _ => Option.some "claude",
        fun _ => true, fun _ => false, fun _ => true⟩
       ⟨"claude", 101, "2025-01-01T00:00:00", "/tmp/p"⟩).1 = true := by
  refine ⟨(kill_old_session_spec _ _).1, ?_⟩
  have h := (kill_old_session_spec
    ⟨true, fun _ => true, fun _ => Option.some "claude",
     fun _ => true, fun _ => false, fun _ => true⟩
    ⟨"claude", 101, "2025-01-01T00:00:00", "/tmp/p"⟩).2.1
  have hm : nameMatches "claude" = true := by decide
  simpa [hm] using h

/-- C2: whenever `read_session` returns (with `old`), `rotate_session`
reads the persisted session first, attempts the kill exactly when
`kill_old` is set and a valid old session exists (the kill event precedes
the write event in the trace), and afterwards the state file holds exactly
the new session's tool, pid and working directory, which is also the
returned `SessionInfo`; reading the file back yields that session. -/
theorem rotate_session_spec (fs : FileState) (old : Option SessionInfo)
    (tool : String) (pid : Int) (cwdArg : Option String) (kill_old : Bool)
    (getcwd now : String) (h : read_session fs = Except.ok old) :
    rotate_session fs tool pid cwdArg kill_old getcwd now =
      Except.ok
        (SEv.readEv :: (if kill_old && old.isSome then [SEv.killEv] else []) ++ [SEv.writeEv],
         FileState.parsed (to_dict ⟨tool, pid, now, pyOrS cwdArg getcwd⟩),
         ⟨tool, pid, now, pyOrS cwdArg getcwd⟩) ∧
    read_session (FileState.parsed (to_dict ⟨tool, pid, now, pyOrS cwdArg getcwd⟩)) =
      Except.ok (Option.some ⟨tool, pid, now, pyOrS cwdArg getcwd⟩) := by
  constructor
  · unfold rotate_session
    rw [h]
    simp [write_session]
  · simp [read_session, from_dict_to_dict]

/-- C2 witness: rotating from an absent state file writes and returns the
new session, with no kill event since no old session existed. -/
theorem rotate_session_spec_witness :
    rotate_session FileState.missing "codex" 4242 (Option.some "/work") true
        "/cwd0" "2025-02-02T00:00:00" =
      Except.ok
        ([SEv.readEv, SEv.writeEv],
         FileState.parsed (to_dict ⟨"codex", 4242, "2025-02-02T00:00:00", "/work"⟩),
         ⟨"codex", 4242, "2025-02-02T00:00:00", "/work"⟩) ∧
    read_session (FileState.parsed (to_dict ⟨"codex", 4242, "2025-02-02T00:00:00", "/work"⟩)) =
      Except.ok (Option.some ⟨"codex", 4242, "2025-02-02T00:00:00", "/work"⟩) := by
  have h := rotate_session_spec FileState.missing Option.none "codex" 4242
    (Option.some "/work") true "/cwd0" "2025-02-02T00:00:00" rfl
  have hc : pyOrS (Option.some "/work") "/cwd0" = "/work" := by decide
  constructor
  · have h1 := h.1
    rw [hc] at h1
    simpa using h1
  · have h2 := h.2
    rw [hc] at h2
    exact h2

theorem version_key_foldl (l : List String) (t : String) :
    version_key (l.foldl
      (fun best x => if pyListLtInt (version_key best) (version_key x) then x else best) t) =
    (l.map version_key).foldl
      (fun acc k => if pyListLtInt acc k then k else acc) (version_key t) := by
  induction l generalizing t with
  | nil => rfl
  | cons x xs ih =>
    simp only [List.foldl_cons, List.map_cons]
    by_cases h : pyListLtInt (version_key t) (version_key x) = true
    · rw [if_pos h, if_pos h]
      exact ih x
    · rw [if_neg h, if_neg h]
      exact ih t

/-- C7 counterexample: on the tag list `v1.2.3.4 v0.0.1` (both tags match
the git glob `v*.*.*`), the code ranks `v1.2.3.4` by its full
four-component key `(1,2,3,4)`, picks it as the latest tag, and the
three-way unpacking of that key raises `ValueError`, so the function
returns `"v1.0.0"`; the claim instead ranks `v1.2.3.4` as `(0,0,0)` (not
three dot-separated integers) and would return `"v0.0.2"`. -/
theorem get_next_version_counterexample :
    get_next_version (Option.some "v1.2.3.4 v0.0.1") = "v1.0.0" ∧
    get_next_version_claim (Option.some "v1.2.3.4 v0.0.1") = "v0.0.2" ∧
    ("v1.0.0" : String) ≠ "v0.0.2" := by
  refine ⟨by decide, by decide, by decide⟩

/-- C7 amended: `get_next_version` returns `"v1.0.0"` when listing fails
or no tag is listed; otherwise it ranks each tag by the tuple of all its
dot-separated integer components after the leading "v" (a tag with a
non-integer component ranks as `(0,0,0)`), takes the highest key under
Python tuple ordering, and returns the patch-incremented version when that
key has exactly three components, falling back to `"v1.0.0"` (the caught
unpacking `ValueError`) when it does not. -/
theorem get_next_version_amended (gitResult : Option String) :
    get_next_version gitResult =
      (match gitResult with
       | Option.none => "v1.0.0"
       | Option.some stdout =>
         match ((pySplitWs stdout).map (fun t => pyStrip t)).filter (fun t => t != "") with
         | [] => "v1.0.0"
         | t :: rest =>
           match (rest.map version_key).foldl
               (fun acc k => if pyListLtInt acc k then k else acc) (version_key t) with
           | [a, b, c] => "v" ++ toString a ++ "." ++ toString b ++ "." ++ toString (c + 1)
           | _ => "v1.0.0") := by
  cases gitResult with
  | none => rfl
  | some stdout =>
    unfold get_next_version
    cases h : ((pySplitWs stdout).map (fun t => pyStrip t)).filter (fun t => t != "") with
    | nil => simp [h]
    | cons t rest =>
      simp only [h]
      rw [version_key_foldl]

theorem appendNeEmpty (a b : String) (h : a ≠ "") : a ++ b ≠ "" := by
  intro he
  apply h
  have hd : a.data ++ b.data = ([] : List Char) := congrArg String.data he
  have ha : a.data = [] := (List.append_eq_nil.mp hd).1
  cases a
  subst ha
  rfl

theorem joinSep_ne_empty (x : String) (xs : List String) (hx : x ≠ "") :
    joinSep "\n" (x :: xs) ≠ "" := by
  cases xs with
  | nil => simpa [joinSep] using hx
  | cons y ys =>
    simp only [joinSep]
    exact appendNeEmpty _ _ (appendNeEmpty _ _ hx)

theorem todo_text_eq (todoFile : Option (List String)) :
    (if collect_todo_lines todoFile = [] then "No open TODO items."
     else joinSep "\n" (collect_todo_lines todoFile)) =
      (match todoFile with
       | Option.none => "No open TODO items."
       | Option.some ls =>
         match ((ls.map (fun l => pyStrip l)).filter (fun l => pyStartsWith l "- [ ]")).take 5 with
         | [] => "No open TODO items."
         | x :: xs => joinSep "\n" (x :: xs)) := by
  cases todoFile with
  | none => rfl
  | some ls =>
    simp only [collect_todo_lines]
    cases h : ((ls.map (fun l => pyStrip l)).filter (fun l => pyStartsWith l "- [ ]")).take 5 with
    | nil => simp [h]
    | cons x xs => simp [h]

theorem plan_text_eq (planFile : Option (List String)) :
    (if collect_plan_hint planFile = "" then "No plan summary available."
     else collect_plan_hint planFile) =
      (match planFile with
       | Option.none => "No plan summary available."
       | Option.some ls =>
         match ((ls.map (fun l => pyStrip l)).filter (fun l => l != "")).take 5 with
         | [] => "No plan summary available."
         | x :: xs => joinSep "\n" (x :: xs)) := by
  cases planFile with
  | none => rfl
  | some ls =>
    simp only [collect_plan_hint]
    cases h : ((ls.map (fun l => pyStrip l)).filter (fun l => l != "")).take 5 with
    | nil => simp [h, joinSep]
    | cons x xs =>
      have hmem : x ∈ ((ls.map (fun l => pyStrip l)).filter (fun l => l != "")).take 5 := by
        rw [h]
        exact List.mem_cons_self x xs
      have hmem2 : x ∈ (ls.map (fun l => pyStrip l)).filter (fun l => l != "") :=
        List.mem_of_mem_take hmem
      have hp := List.of_mem_filter hmem2
      have hx : x ≠ "" := by simpa using hp
      rw [if_neg (joinSep_ne_empty x xs hx)]

/-- C5: `build_prompt` formats the selected template with the first five
stripped `"- [ ]"` lines of `TODO.md` (else "No open TODO items.") as
`todo` and the first five non-empty stripped lines of `PLAN.md` (else
"No plan summary available.") as `plan`, and returns the template source
unchanged when formatting raises. -/
theorem build_prompt_spec (settings : UserSettingsM) (source_tool target_tool : String)
    (todoFile planFile : Option (List String)) (fallback : List Tok) :
    build_prompt settings source_tool target_tool todoFile planFile fallback =
      (let template := pyOrT (List.lookup source_tool settings.prompts)
         (pyOrT (List.lookup source_tool DEFAULT_PROMPTS) fallback)
       let todoVal :=
         match todoFile with
         | Option.none => "No open TODO items."
         | Option.some ls =>
           match ((ls.map (fun l => pyStrip l)).filter (fun l => pyStartsWith l "- [ ]")).take 5 with
           | [] => "No open TODO items."
           | x :: xs => joinSep "\n" (x :: xs)
       let planVal :=
         match planFile with
         | Option.none => "No plan summary available."
         | Option.some ls =>
           match ((ls.map (fun l => pyStrip l)).filter (fun l => l != "")).take 5 with
           | [] => "No plan summary available."
           | x :: xs => joinSep "\n" (x :: xs)
       match formatTmpl template
           [("todo", todoVal), ("plan", planVal),
            ("target", target_tool), ("source", source_tool)] with
       | Option.some s => s
       | Option.none => tokSource template) := by
  simp only [build_prompt]
  rw [todo_text_eq, plan_text_eq]

/-- C8 counterexample: with `data = []` (an empty list, so a sequence that
is neither `str` nor `bytes`) and `config = 1` (neither `None` nor a
`Config` instance), the code raises `ValueError` from the emptiness check,
which runs before the config check; the claim's "raises TypeError exactly
when ... config is neither None nor a Config instance" demands a
`TypeError` at this input. -/
theorem process_data_counterexample :
    process_data (PyVal.listV []) (ConfigArg.other (PyVal.intV 1)) =
      Except.error PyErr8.valueError ∧
    configIsBad (ConfigArg.other (PyVal.intV 1)) = true ∧
    PyErr8.valueError ≠ PyErr8.typeError := by
  refine ⟨rfl, rfl, by decide⟩

/-- C8 amended: `process_data` raises `TypeError` exactly when the data is
a string, bytes, or not a sequence, or when the data is a non-empty
sequence and the config is neither `None` nor a `Config` instance; it
raises `ValueError` exactly when the data is a proper sequence that is
empty (the emptiness check precedes the config check); otherwise it
returns a summary with the claimed count, unique-repr count, sorted
distinct type names, config name and first-item repr. -/
theorem process_data_amended (d : PyVal) (c : ConfigArg) :
    (process_data d c = Except.error PyErr8.typeError ↔
      (dataIsBad d = true ∨
        (dataIsBad d = false ∧ pyItems d ≠ [] ∧ configIsBad c = true))) ∧
    (process_data d c = Except.error PyErr8.valueError ↔
      (dataIsBad d = false ∧ pyItems d = [])) ∧
    (∀ s, process_data d c = Except.ok s →
      dataIsBad d = false ∧ pyItems d ≠ [] ∧ configIsBad c = false ∧
      s.count = (pyItems d).length ∧
      s.unique_count = (dedupStr ((pyItems d).map pyRepr)).length ∧
      s.types = sortStrings (dedupStr ((pyItems d).map typeName)) ∧
      s.config_name = (match c with
        | ConfigArg.conf n _ _ => Option.some n
        | _ => Option.none) ∧
      s.first_item = ((pyItems d).map pyRepr).headD "") := by
  unfold process_data
  cases hb : (isStrOrBytes d || !isSeq d) with
  | true =>
    simp [dataIsBad, hb]
  | false =>
    cases hi : pyItems d with
    | nil =>
      simp [dataIsBad, hb, hi]
    | cons x xs =>
      cases c with
      | other v =>
        simp [dataIsBad, hb, hi, configIsBad]
      | noneArg =>
        refine ⟨?_, ?_, ?_⟩
        · simp [dataIsBad, hb, hi, configIsBad]
        · simp [dataIsBad, hb, hi]
        · intro s hs
          injection hs with hrec
          subst hrec
          simp [dataIsBad, hb, hi, configIsBad]
      | conf n val opts =>
        refine ⟨?_, ?_, ?_⟩
        · simp [dataIsBad, hb, hi, configIsBad]
        · simp [dataIsBad, hb, hi]
        · intro s hs
          injection hs with hrec
          subst hrec
          simp [dataIsBad, hb, hi, configIsBad]

/-- C8 witness: a concrete non-empty list with a `None` config satisfies
the amended theorem's success-branch hypotheses. -/
theorem process_data_amended_witness :
    dataIsBad (PyVal.listV [PyVal.intV 1, PyVal.intV 1]) = false ∧
    pyItems (PyVal.listV [PyVal.intV 1, PyVal.intV 1]) ≠ [] ∧
    configIsBad ConfigArg.noneArg = false := by
  have h := (process_data_amended (PyVal.listV [PyVal.intV 1, PyVal.intV 1])
    ConfigArg.noneArg).2.2 ⟨2, 1, ["int"], Option.none, "1", []⟩ rfl
  exact ⟨h.1, h.2.1, h.2.2.1⟩
